import Mathlib

/-!
Shallow embedding of the speech-to-rag-engine repository (TypeScript sources)
and proofs about its retrieval, embedding-retry, classification and
source-mapping behaviour.

Conventions:
- JavaScript numbers that only ever get compared are modelled as rationals.
- Remote collaborators (the vector backend, the embedding provider, the
  relational store) are modelled as explicit oracles passed to each function;
  every function additionally returns the list or count of remote calls it
  issued, so frame properties (no remote call) are statable.
- A thrown JS exception is an Except.error value that propagates.
- JavaScript Array.prototype.sort is stable (ECMA-262), so the comparator
  (a, b) => b.similarity - a.similarity is modelled by the stable
  List.insertionSort with the descending-similarity relation.
-/

namespace SpeechToRag

/-- A ranked row returned by the match_documents RPC (src/src/lib/retrieval.ts,
retrieveRelevantChunks return type). The file_id field records the annotation
added in the multi-file path (spread { ...c, file_id: fileId }); it is none for
rows that were never annotated. -/
structure Match where
  id : String
  chunk : String
  similarity : ℚ
  source_type : String
  source_id : String
  file_id : Option String := none
deriving DecidableEq, Repr

/-- One similarity query issued against the vector backend: the arguments of the
supabase.rpc call in retrieveRelentChunks (query_embedding, match_count,
target_file, source_types). -/
structure Query where
  query_embedding : List ℚ
  target_file : Option String
  match_count : ℕ
  source_types : List String
deriving DecidableEq, Repr

/-- Descending-similarity ordering: the JS comparator (a, b) => b.similarity -
a.similarity puts a before b exactly when b.similarity ≤ a.similarity. -/
def simDesc (a b : Match) : Prop := b.similarity ≤ a.similarity

instance : DecidableRel simDesc :=
  fun a b => inferInstanceAs (Decidable (b.similarity ≤ a.similarity))

instance : IsTotal Match simDesc :=
  ⟨fun a b => le_total b.similarity a.similarity⟩

instance : IsTrans Match simDesc :=
  ⟨fun _ _ _ hab hbc => le_trans hbc hab⟩

/-- Model of retrieveRelevantChunks (src/src/lib/retrieval.ts lines 3-22): issue
one similarity query; a backend error is thrown and propagates. The second
component is the list of remote queries issued (always exactly one). -/
def retrieveRelevantChunks (rpc : Query → Except String (List Match))
    (queryEmbedding : List ℚ) (fileId : Option String) (limit : ℕ)
    (sourceTypes : List String) : Except String (List Match) × List Query :=
  let q : Query := ⟨queryEmbedding, fileId, limit, sourceTypes⟩
  (rpc q, [q])

/-- The per-file loop of retrieveRelevantChunksFromFiles (lines 44-47): one
query per file id, each bounded to limit and restricted to source type pdf;
each row is annotated with its file id; results are concatenated in file order;
a thrown backend error aborts the loop and propagates. -/
def fanoutFiles (rpc : Query → Except String (List Match))
    (queryEmbedding : List ℚ) (limit : ℕ) :
    List String → Except String (List Match) × List Query
  | [] => (Except.ok [], [])
  | f :: fs =>
    let q : Query := ⟨queryEmbedding, some f, limit, ["pdf"]⟩
    match rpc q with
    | Except.error e => (Except.error e, [q])
    | Except.ok chunks =>
      match fanoutFiles rpc queryEmbedding limit fs with
      | (Except.error e, qs) => (Except.error e, q :: qs)
      | (Except.ok rest, qs) =>
        (Except.ok (chunks.map (fun c => { c with file_id := some f }) ++ rest),
         q :: qs)

/-- Model of retrieveRelevantChunksFromFiles (src/src/lib/retrieval.ts lines
27-53): empty input returns [] with no query; a single file id delegates to
retrieveRelevantChunks; two or more file ids fan out one query per file, then
sort the concatenation by descending similarity (stable) and truncate to
limit. -/
def retrieveRelevantChunksFromFiles (rpc : Query → Except String (List Match))
    (queryEmbedding : List ℚ) (fileIds : List String) (limit : ℕ) :
    Except String (List Match) × List Query :=
  match fileIds with
  | [] => (Except.ok [], [])
  | [f] => retrieveRelevantChunks rpc queryEmbedding (some f) limit ["pdf"]
  | _ =>
    match fanoutFiles rpc queryEmbedding limit fileIds with
    | (Except.error e, qs) => (Except.error e, qs)
    | (Except.ok allChunks, qs) =>
      (Except.ok ((allChunks.insertionSort simDesc).take limit), qs)

/-- The per-file loop of retrieveRelevantChunksForPhone (lines 67-72): same
fan-out as fanoutFiles but without the file_id annotation (the rows are pushed
unchanged). -/
def fanoutFilesPlain (rpc : Query → Except String (List Match))
    (queryEmbedding : List ℚ) (limit : ℕ) :
    List String → Except String (List Match) × List Query
  | [] => (Except.ok [], [])
  | f :: fs =>
    let q : Query := ⟨queryEmbedding, some f, limit, ["pdf"]⟩
    match rpc q with
    | Except.error e => (Except.error e, [q])
    | Except.ok chunks =>
      match fanoutFilesPlain rpc queryEmbedding limit fs with
      | (Except.error e, qs) => (Except.error e, q :: qs)
      | (Except.ok rest, qs) => (Except.ok (chunks ++ rest), q :: qs)

/-- Model of retrieveRelevantChunksForPhone (src/src/lib/retrieval.ts lines
58-87): fan out over fileIds when non-empty; when callIds is non-empty issue a
single broader query bounded to limit * callIds.length with no target file and
source type call, filter its rows to the requested call ids; sort everything by
descending similarity and truncate to limit. -/
def retrieveRelevantChunksForPhone (rpc : Query → Except String (List Match))
    (queryEmbedding : List ℚ) (fileIds callIds : List String) (limit : ℕ) :
    Except String (List Match) × List Query :=
  match (if fileIds.length > 0 then fanoutFilesPlain rpc queryEmbedding limit fileIds
         else (Except.ok [], [])) with
  | (Except.error e, qs) => (Except.error e, qs)
  | (Except.ok fileChunks, qs) =>
    if callIds.length > 0 then
      let q : Query := ⟨queryEmbedding, none, limit * callIds.length, ["call"]⟩
      match rpc q with
      | Except.error e => (Except.error e, qs ++ [q])
      | Except.ok callChunks =>
        let filtered := callChunks.filter (fun c => callIds.contains c.source_id)
        (Except.ok (((fileChunks ++ filtered).insertionSort simDesc).take limit),
         qs ++ [q])
    else
      (Except.ok ((fileChunks.insertionSort simDesc).take limit), qs)

/-- Under a backend that answers every per-file query successfully, the fan-out
loop issues exactly one query per file id and returns the concatenation of the
annotated per-file results. -/
lemma fanoutFiles_ok (rpc : Query → Except String (List Match))
    (emb : List ℚ) (limit : ℕ) (res : String → List Match) :
    ∀ fileIds : List String,
      (∀ f ∈ fileIds, rpc ⟨emb, some f, limit, ["pdf"]⟩ = Except.ok (res f)) →
      fanoutFiles rpc emb limit fileIds =
        (Except.ok ((fileIds.map
            (fun f => (res f).map (fun c => { c with file_id := some f }))).flatten),
         fileIds.map (fun f => ⟨emb, some f, limit, ["pdf"]⟩)) := by
  intro fileIds
  induction fileIds with
  | nil => intro _; rfl
  | cons f fs ih =>
    intro h
    have hf := h f (List.mem_cons_self f fs)
    have hrest := ih (fun g hg => h g (List.mem_cons_of_mem f hg))
    simp [fanoutFiles, hf, hrest]

/-- C1: for every query embedding, set of two or more document ids, and limit,
retrieval over the document set issues one similarity query per document id,
each bounded to limit results; it concatenates the per-document results,
re-sorts them globally by descending similarity and truncates to at most limit
matches; when every document yields limit results, exactly limit results are
returned, ordered by non-increasing similarity. -/
theorem C1_document_set_fanout_merge
    (rpc : Query → Except String (List Match)) (emb : List ℚ)
    (fileIds : List String) (limit : ℕ) (res : String → List Match)
    (h2 : 2 ≤ fileIds.length)
    (hok : ∀ f ∈ fileIds, rpc ⟨emb, some f, limit, ["pdf"]⟩ = Except.ok (res f)) :
    (retrieveRelevantChunksFromFiles rpc emb fileIds limit).2 =
        fileIds.map (fun f => ⟨emb, some f, limit, ["pdf"]⟩)
    ∧ (retrieveRelevantChunksFromFiles rpc emb fileIds limit).1 =
        Except.ok ((((fileIds.map (fun f =>
            (res f).map (fun c => { c with file_id := some f }))).flatten).insertionSort
              simDesc).take limit)
    ∧ ∀ out, (retrieveRelevantChunksFromFiles rpc emb fileIds limit).1 = Except.ok out →
        out.length ≤ limit
        ∧ out.Pairwise simDesc
        ∧ ((∀ f ∈ fileIds, (res f).length = limit) → out.length = limit) := by
  obtain ⟨f1, f2, fs, rfl⟩ : ∃ a b l, fileIds = a :: b :: l := by
    rcases fileIds with _ | ⟨a, _ | ⟨b, l⟩⟩
    · simp at h2
    · simp at h2
    · exact ⟨a, b, l, rfl⟩
  have hfan := fanoutFiles_ok rpc emb limit res (f1 :: f2 :: fs) hok
  have hmain : retrieveRelevantChunksFromFiles rpc emb (f1 :: f2 :: fs) limit =
      (Except.ok (((((f1 :: f2 :: fs).map (fun f =>
          (res f).map (fun c => { c with file_id := some f }))).flatten).insertionSort
            simDesc).take limit),
       (f1 :: f2 :: fs).map (fun f => ⟨emb, some f, limit, ["pdf"]⟩)) := by
    simp [retrieveRelevantChunksFromFiles, hfan]
  refine ⟨by rw [hmain], by rw [hmain], ?_⟩
  intro out hout
  rw [hmain] at hout
  simp only [Except.ok.injEq] at hout
  subst hout
  refine ⟨?_, ?_, ?_⟩
  · simp [List.length_take]
  · exact List.Pairwise.sublist (List.take_sublist _ _)
      (List.sorted_insertionSort simDesc _)
  · intro hall
    have hf1 := hall f1 (by simp)
    have hlen : limit ≤ ((f1 :: f2 :: fs).map (fun f =>
        (res f).map (fun c => { c with file_id := some f }))).flatten.length := by
      rw [List.map_cons, List.flatten_cons, List.length_append, List.length_map]
      omega
    simp only [List.length_take, List.length_insertionSort]
    omega

/-- Concrete backend for the C1 witness: document id a yields two rows with
similarities 9 and 7, every other target yields two rows with similarities 8
and 6. -/
def c1rpc : Query → Except String (List Match) := fun q =>
  if q.target_file = some "a" then
    Except.ok [⟨"a1", "ta1", 9, "pdf", "a", none⟩, ⟨"a2", "ta2", 7, "pdf", "a", none⟩]
  else
    Except.ok [⟨"b1", "tb1", 8, "pdf", "b", none⟩, ⟨"b2", "tb2", 6, "pdf", "b", none⟩]

/-- Per-document results of the c1rpc backend. -/
def c1res : String → List Match := fun f =>
  if f = "a" then
    [⟨"a1", "ta1", 9, "pdf", "a", none⟩, ⟨"a2", "ta2", 7, "pdf", "a", none⟩]
  else
    [⟨"b1", "tb1", 8, "pdf", "b", none⟩, ⟨"b2", "tb2", 6, "pdf", "b", none⟩]

/-- Witness for C1 at a concrete input: two documents, limit 2, each yielding
two results. -/
theorem C1_document_set_fanout_merge_witness :
    (2 ≤ (["a", "b"] : List String).length
      ∧ ∀ f ∈ (["a", "b"] : List String),
          c1rpc ⟨[], some f, 2, ["pdf"]⟩ = Except.ok (c1res f))
    ∧ ((retrieveRelevantChunksFromFiles c1rpc [] ["a", "b"] 2).2 =
        (["a", "b"] : List String).map (fun f => ⟨[], some f, 2, ["pdf"]⟩)
      ∧ (retrieveRelevantChunksFromFiles c1rpc [] ["a", "b"] 2).1 =
        Except.ok (((((["a", "b"] : List String).map (fun f =>
            (c1res f).map (fun c => { c with file_id := some f }))).flatten).insertionSort
              simDesc).take 2)
      ∧ ∀ out, (retrieveRelevantChunksFromFiles c1rpc [] ["a", "b"] 2).1 = Except.ok out →
          out.length ≤ 2
          ∧ out.Pairwise simDesc
          ∧ ((∀ f ∈ (["a", "b"] : List String), (c1res f).length = 2) →
              out.length = 2)) :=
  ⟨⟨by decide, by intro f hf; fin_cases hf <;> rfl⟩,
   C1_document_set_fanout_merge c1rpc [] ["a", "b"] 2 c1res (by decide)
     (by intro f hf; fin_cases hf <;> rfl)⟩

/-- C9: retrieval over an empty scope (no document ids and no call ids) returns
an empty list and issues no remote query, both for the document-set entry point
and for the phone entry point. -/
theorem C9_empty_scope_short_circuits
    (rpc : Query → Except String (List Match)) (emb : List ℚ) (limit : ℕ) :
    retrieveRelevantChunksFromFiles rpc emb [] limit = (Except.ok [], [])
    ∧ retrieveRelevantChunksForPhone rpc emb [] [] limit = (Except.ok [], []) := by
  refine ⟨rfl, ?_⟩
  simp [retrieveRelevantChunksForPhone, List.insertionSort]

/-- Substring test modelling the JS expression s.includes(sub) for a non-empty
pattern: splitOn yields more than one piece exactly when the pattern occurs. -/
def jsIncludes (s sub : String) : Bool := (s.splitOn sub).length != 1

/-- A thrown error from the embedding provider, carrying the fields inspected
by embedTextWithRateLimit (statusCode and message). -/
structure EmbedError where
  statusCode : Option ℕ
  message : String
deriving DecidableEq, Repr

/-- The rate-limit test of embedTextWithRateLimit (src/src/lib/phoneMapping.ts
line 702): statusCode 429, or a message containing 429 or rate limit. -/
def isRateLimitError (e : EmbedError) : Bool :=
  e.statusCode == some 429 || jsIncludes e.message "429"
    || jsIncludes e.message "rate limit"

/-- The retry loop of embedTextWithRateLimit (src/src/lib/phoneMapping.ts lines
690-718), with attempt counting from 0. oracle a is the outcome of the
embedText call made on attempt a; jitter a models the Math.random() draw of
attempt a, in seconds. Returns the result, the number of provider calls issued,
and the waits (in seconds, base 2 ^ attempt plus jitter) slept between
attempts. The fuel argument maintains fuel = maxRetries - attempt; the
fuel-exhausted case is the throw after the loop, unreachable for positive
maxRetries. -/
def embedLoop (oracle : ℕ → Except EmbedError (List ℚ)) (jitter : ℕ → ℚ)
    (maxRetries : ℕ) : ℕ → ℕ → Except EmbedError (List ℚ) × ℕ × List ℚ
  | 0, _ =>
    (Except.error ⟨none, "Failed to generate embedding after all retries"⟩, 0, [])
  | fuel + 1, attempt =>
    match oracle attempt with
    | Except.ok v => (Except.ok v, 1, [])
    | Except.error e =>
      if isRateLimitError e ∧ attempt < maxRetries - 1 then
        let wait : ℚ := 2 ^ attempt + jitter attempt
        let r := embedLoop oracle jitter maxRetries fuel (attempt + 1)
        (r.1, r.2.1 + 1, wait :: r.2.2)
      else (Except.error e, 1, [])

/-- Model of embedTextWithRateLimit (src/src/lib/phoneMapping.ts lines
681-721): a cache hit short-circuits the provider; otherwise the retry loop
runs with maxRetries = 5 from attempt 0, and a successful embedding is cached.
Returns the result, the updated cache, the number of provider calls and the
waits slept. -/
def embedTextWithRateLimit (oracle : ℕ → Except EmbedError (List ℚ))
    (jitter : ℕ → ℚ) (cache : List (String × List ℚ)) (text : String) :
    Except EmbedError (List ℚ) × List (String × List ℚ) × ℕ × List ℚ :=
  match cache.lookup text with
  | some v => (Except.ok v, cache, 0, [])
  | none =>
    let r := embedLoop oracle jitter 5 5 0
    match r.1 with
    | Except.ok v => (Except.ok v, (text, v) :: cache, r.2.1, r.2.2)
    | Except.error e => (Except.error e, cache, r.2.1, r.2.2)

/-- The retry loop never issues more provider calls than it has fuel. -/
lemma embedLoop_calls_le (oracle : ℕ → Except EmbedError (List ℚ))
    (jitter : ℕ → ℚ) (m : ℕ) :
    ∀ fuel attempt, (embedLoop oracle jitter m fuel attempt).2.1 ≤ fuel := by
  intro fuel
  induction fuel with
  | zero => intro attempt; simp [embedLoop]
  | succ n ih =>
    intro attempt
    simp only [embedLoop]
    cases h : oracle attempt with
    | ok v => simp
    | error e =>
      by_cases hc : isRateLimitError e = true ∧ attempt < m - 1
      · simp only [hc, and_self, if_true]
        have := ih (attempt + 1)
        simpa using Nat.succ_le_succ this
      · simp [hc]

/-- Generic retry helper retrySupabaseQuery (src/src/lib/phoneMapping.ts lines
6-25). stream k is the outcome of the k-th query issued (0-based); attempt runs
from 1 to maxRetries and waits attempt seconds after a failed attempt that is
not the last; after the loop the code issues one further query and returns its
result. Returns the result, the total number of queries issued, and the waits
(in seconds). fuel = maxRetries - attempt + 1; the fuel-exhausted case is the
final return await queryFn() after the loop. -/
def retryGo (stream : ℕ → Except String String) (maxRetries : ℕ) :
    ℕ → ℕ → Except String String × ℕ × List ℚ
  | 0, attempt => (stream (attempt - 1), 1, [])
  | fuel + 1, attempt =>
    match stream (attempt - 1) with
    | Except.ok d => (Except.ok d, 1, [])
    | Except.error _ =>
      let ws : List ℚ := if attempt < maxRetries then [(attempt : ℚ)] else []
      let r := retryGo stream maxRetries fuel (attempt + 1)
      (r.1, r.2.1 + 1, ws ++ r.2.2)

/-- Model of retrySupabaseQuery with its loop entered at attempt 1. -/
def retrySupabaseQuery (stream : ℕ → Except String String) (maxRetries : ℕ) :
    Except String String × ℕ × List ℚ :=
  retryGo stream maxRetries maxRetries 1

/-- Outcome of a single-row supabase read: either a row payload or an error
carrying the PostgREST error code and a message. -/
inductive QueryOutcome (α : Type) where
  | rows (d : α)
  | err (code : String) (msg : String)
deriving DecidableEq, Repr

/-- Model of getDataSourceForPhone (src/src/lib/phoneMapping.ts lines 144-162):
error code PGRST116 (no rows) yields null; any other error is logged and also
yields null; a row yields its data_source column, defaulting to file when the
column is null or empty (the JS expression data?.data_source || fallback
treats the empty string as falsy). -/
def getDataSourceForPhone (q : QueryOutcome (Option String)) : Option String :=
  match q with
  | QueryOutcome.err code _ => if code = "PGRST116" then none else none
  | QueryOutcome.rows ds =>
    match ds with
    | none => some "file"
    | some s => if s = "" then some "file" else some s

/-- Model of getShopifyStoreForPhoneNumber (src/src/lib/phoneMapping.ts lines
65-84): error code PGRST116 yields null; any other error is logged and also
yields null; a row yields its shopify_store_id, with null or empty collapsing
to null. -/
def getShopifyStoreForPhoneNumber (q : QueryOutcome (Option String)) :
    Option String :=
  match q with
  | QueryOutcome.err code _ => if code = "PGRST116" then none else none
  | QueryOutcome.rows v =>
    match v with
    | none => none
    | some s => if s = "" then none else some s

/-- The three continuations of generateAutoResponse after the data-source
lookup (src/unnamed/part_000 lines 58-68 and 123-152). -/
inductive RetrievalPath where
  | noSource
  | shopifyPath
  | filePath
deriving DecidableEq, Repr

/-- The data-source dispatch of generateAutoResponse: a missing data source
returns the noDocuments failure, shopify goes to the catalog path, and any
other value goes down the file/call retrieval path. -/
def autoResponsePath (ds : Option String) : RetrievalPath :=
  match ds with
  | none => RetrievalPath.noSource
  | some s =>
    if s = "shopify" then RetrievalPath.shopifyPath else RetrievalPath.filePath

/-- Classification result produced by classifyTranscript in both ingestion
routes. -/
structure Classification where
  isBlank : Bool
  isSpam : Bool
  is11zaRelated : Bool
  blankConfidence : ℚ
  spamConfidence : ℚ
  relevanceConfidence : ℚ
deriving DecidableEq, Repr

/-- Model of the JS expression s.trim(): drop whitespace from both ends of the
string. -/
def jsTrim (s : String) : String :=
  String.mk
    (((s.data.dropWhile Char.isWhitespace).reverse.dropWhile
        Char.isWhitespace).reverse)

/-- The deterministic fallback of classifyTranscript (the catch branch in both
routes): blank iff the trimmed transcript is shorter than 50 characters, not
spam, not relevant, every confidence one half. -/
def classifyFallback (transcript : String) : Classification :=
  ⟨decide ((jsTrim transcript).length < 50), false, false, 1/2, 1/2, 1/2⟩

/-- Model of classifyTranscript: a successful classifier call yields its parsed
result; any failure (network error, missing content, JSON parse error) falls
back to classifyFallback. -/
def classifyTranscript (classifier : Option Classification)
    (transcript : String) : Classification :=
  match classifier with
  | some c => c
  | none => classifyFallback transcript

/-- Final status determination of the worker route
(src/src/app/api/process-calls-worker/route.ts lines 173-183): priority blank,
then spam, then 11za_related, otherwise irrelevant. -/
def finalStatusWorker (c : Classification) : String :=
  if c.isBlank then "blank"
  else if c.isSpam then "spam"
  else if c.is11zaRelated then "11za_related"
  else "irrelevant"

/-- Final status determination of the single-call upload route
(src/src/app/api/process-call/route.ts lines 215-225): same priority order but
the residual case is approved. -/
def finalStatusUpload (c : Classification) : String :=
  if c.isBlank then "blank"
  else if c.isSpam then "spam"
  else if c.is11zaRelated then "11za_related"
  else "approved"

/-- Durable outcome of processing one ingestion unit: the final status, the
error_reason column, the number of persisted chunk rows, and whether the
chunking stage was entered. -/
structure CallOutcome where
  status : String
  error_reason : Option String
  chunkRows : ℕ
  enteredChunking : Bool
deriving DecidableEq, Repr

/-- Model of processCall in the worker route
(src/src/app/api/process-calls-worker/route.ts lines 100-253): a transcription
failure is caught by the outer handler, which persists status failed with
error_reason set to the thrown message and no chunks; otherwise the transcript
is classified (with fallback), the chunking stage is entered exactly when the
final status is 11za_related, a chunk-stage failure is caught by the inner
handler and downgrades the status to failed with zero rows (error_reason is not
set there), and a successful chunk stage persists its rows. -/
def processCallWorker (transcribe : Except String String)
    (classifier : Option Classification) (chunkStage : Except String ℕ) :
    CallOutcome :=
  match transcribe with
  | Except.error e => ⟨"failed", some e, 0, false⟩
  | Except.ok transcript =>
    let c := classifyTranscript classifier transcript
    let fs := finalStatusWorker c
    if fs = "11za_related" then
      match chunkStage with
      | Except.error _ => ⟨"failed", none, 0, true⟩
      | Except.ok n => ⟨"11za_related", none, n, true⟩
    else ⟨fs, none, 0, false⟩

/-- Model of the single-call upload route POST
(src/src/app/api/process-call/route.ts lines 107-329) reduced to the same
observables: its catch handler persists only status failed, leaving
error_reason null, and the residual classification case is approved. -/
def processCallUpload (transcribe : Except String String)
    (classifier : Option Classification) (chunkStage : Except String ℕ) :
    CallOutcome :=
  match transcribe with
  | Except.error _ => ⟨"failed", none, 0, false⟩
  | Except.ok transcript =>
    let c := classifyTranscript classifier transcript
    let fs := finalStatusUpload c
    if fs = "11za_related" then
      match chunkStage with
      | Except.error _ => ⟨"failed", none, 0, true⟩
      | Except.ok n => ⟨"11za_related", none, n, true⟩
    else ⟨fs, none, 0, false⟩

/-- A persisted whatsapp_messages row, with received_at as a numeric
timestamp. -/
structure WMessage where
  message_id : String
  from_number : String
  to_number : String
  received_at : ℕ
  content_text : Option String
  event_type : String
deriving DecidableEq, Repr

/-- Ascending received_at ordering used by the history query. -/
def recvAsc (a b : WMessage) : Prop := a.received_at ≤ b.received_at

instance : DecidableRel recvAsc :=
  fun a b => inferInstanceAs (Decidable (a.received_at ≤ b.received_at))

instance : IsTotal WMessage recvAsc :=
  ⟨fun a b => le_total a.received_at b.received_at⟩

instance : IsTrans WMessage recvAsc :=
  ⟨fun _ _ _ => le_trans⟩

/-- Model of the history query of generateAutoResponse (src/unnamed/part_000
lines 160-166): rows of whatsapp_messages involving the counterpart
(from_number or to_number equal to it), ordered by received_at ascending,
limited to 20 rows. -/
def loadHistoryRows (store : List WMessage) (user : String) : List WMessage :=
  ((store.filter
      (fun m => m.from_number == user || m.to_number == user)).insertionSort
    recvAsc).take 20

/-- The history assembly (lines 169-174): keep loaded rows that have content
and whose event_type is MoMessage or MtMessage, mapped to chat roles. -/
def buildHistory (rows : List WMessage) : List (String × String) :=
  (rows.filter (fun m => m.content_text.isSome
      && (m.event_type == "MoMessage" || m.event_type == "MtMessage"))).map
    (fun m => (if m.event_type == "MoMessage" then "user" else "assistant",
               m.content_text.getD ""))

/-- The JS expression l.slice(-n): the last n elements of a list. -/
def sliceLast (n : ℕ) (l : List (String × String)) : List (String × String) :=
  l.drop (l.length - n)

/-- The prompt context of generateAutoResponse (line 312): the assembled
history of the loaded rows, keeping the last 10 entries. -/
def promptHistory (store : List WMessage) (user : String) :
    List (String × String) :=
  sliceLast 10 (buildHistory (loadHistoryRows store user))

/-- C2: the embedding retry loop issues at most 5 provider calls; a
non-rate-limit error on attempt a, after rate-limit errors on every earlier
attempt, propagates immediately as the result with exactly a + 1 calls and no
wait after it; sustained rate-limit errors exhaust exactly 5 attempts and raise
the last underlying error, sleeping 2 ^ attempt seconds plus that attempt's
jitter between consecutive attempts, which is a non-decreasing backoff given
jitter in [0, 1); an uncached text goes through exactly this loop. -/
theorem C2_embedding_retry_policy
    (oracle : ℕ → Except EmbedError (List ℚ)) (jitter : ℕ → ℚ)
    (errs : ℕ → EmbedError)
    (hj : ∀ a, 0 ≤ jitter a ∧ jitter a < 1) :
    (embedLoop oracle jitter 5 5 0).2.1 ≤ 5
    ∧ (∀ a, a < 5 →
        (∀ k, k < a → oracle k = Except.error (errs k)
            ∧ isRateLimitError (errs k) = true) →
        oracle a = Except.error (errs a) →
        isRateLimitError (errs a) = false →
        embedLoop oracle jitter 5 5 0 =
          (Except.error (errs a), a + 1,
            (List.range a).map (fun k => 2 ^ k + jitter k)))
    ∧ ((∀ a, a < 5 → oracle a = Except.error (errs a)
          ∧ isRateLimitError (errs a) = true) →
        embedLoop oracle jitter 5 5 0 =
          (Except.error (errs 4), 5,
            [1 + jitter 0, 2 + jitter 1, 4 + jitter 2, 8 + jitter 3])
        ∧ List.Chain' (fun x y => x ≤ y)
            [1 + jitter 0, 2 + jitter 1, 4 + jitter 2, 8 + jitter 3])
    ∧ (∀ text, (embedTextWithRateLimit oracle jitter [] text).1 =
          (embedLoop oracle jitter 5 5 0).1
        ∧ (embedTextWithRateLimit oracle jitter [] text).2.2 =
          (embedLoop oracle jitter 5 5 0).2) := by
  refine ⟨embedLoop_calls_le oracle jitter 5 5 0, ?_, ?_, ?_⟩
  · intro a ha hk hoa hrl
    interval_cases a
    · simp [embedLoop, hoa, hrl]
    · have h0 := hk 0 (by omega)
      simp [embedLoop, h0.1, h0.2, hoa, hrl, List.range_succ]
    · have h0 := hk 0 (by omega); have h1 := hk 1 (by omega)
      simp [embedLoop, h0.1, h0.2, h1.1, h1.2, hoa, hrl, List.range_succ]
    · have h0 := hk 0 (by omega); have h1 := hk 1 (by omega)
      have h2 := hk 2 (by omega)
      simp [embedLoop, h0.1, h0.2, h1.1, h1.2, h2.1, h2.2, hoa, hrl,
        List.range_succ]
    · have h0 := hk 0 (by omega); have h1 := hk 1 (by omega)
      have h2 := hk 2 (by omega); have h3 := hk 3 (by omega)
      simp [embedLoop, h0.1, h0.2, h1.1, h1.2, h2.1, h2.2, h3.1, h3.2, hoa,
        hrl, List.range_succ]
  · intro hall
    have h0 := hall 0 (by omega); have h1 := hall 1 (by omega)
    have h2 := hall 2 (by omega); have h3 := hall 3 (by omega)
    have h4 := hall 4 (by omega)
    have j0 := hj 0; have j1 := hj 1; have j2 := hj 2; have j3 := hj 3
    constructor
    · norm_num [embedLoop, h0.1, h0.2, h1.1, h1.2, h2.1, h2.2, h3.1, h3.2,
        h4.1, h4.2]
    · simp only [List.chain'_cons, List.chain'_singleton, and_true]
      refine ⟨by linarith [j0.2, j1.1], by linarith [j1.2, j2.1],
        by linarith [j2.2, j3.1]⟩
  · intro text
    cases h : (embedLoop oracle jitter 5 5 0).1 <;>
      simp [embedTextWithRateLimit, List.lookup, h]

/-- Oracle that is rate-limited on every attempt, with constant jitter, for the
C2 witness. -/
def c2oracle : ℕ → Except EmbedError (List ℚ) := fun _ =>
  Except.error ⟨some 429, "rate limited"⟩

/-- Constant jitter draw of one half second. -/
def c2jitter : ℕ → ℚ := fun _ => 1/2

/-- The per-attempt errors of c2oracle. -/
def c2errs : ℕ → EmbedError := fun _ => ⟨some 429, "rate limited"⟩

/-- Witness for C2 under a sustained rate limit with jitter one half. -/
theorem C2_embedding_retry_policy_witness :
    (∀ a, 0 ≤ c2jitter a ∧ c2jitter a < 1)
    ∧ ((embedLoop c2oracle c2jitter 5 5 0).2.1 ≤ 5
      ∧ (∀ a, a < 5 →
          (∀ k, k < a → c2oracle k = Except.error (c2errs k)
              ∧ isRateLimitError (c2errs k) = true) →
          c2oracle a = Except.error (c2errs a) →
          isRateLimitError (c2errs a) = false →
          embedLoop c2oracle c2jitter 5 5 0 =
            (Except.error (c2errs a), a + 1,
              (List.range a).map (fun k => 2 ^ k + c2jitter k)))
      ∧ ((∀ a, a < 5 → c2oracle a = Except.error (c2errs a)
            ∧ isRateLimitError (c2errs a) = true) →
          embedLoop c2oracle c2jitter 5 5 0 =
            (Except.error (c2errs 4), 5,
              [1 + c2jitter 0, 2 + c2jitter 1, 4 + c2jitter 2, 8 + c2jitter 3])
          ∧ List.Chain' (fun x y => x ≤ y)
              [1 + c2jitter 0, 2 + c2jitter 1, 4 + c2jitter 2,
               8 + c2jitter 3])
      ∧ (∀ text, (embedTextWithRateLimit c2oracle c2jitter [] text).1 =
            (embedLoop c2oracle c2jitter 5 5 0).1
          ∧ (embedTextWithRateLimit c2oracle c2jitter [] text).2.2 =
            (embedLoop c2oracle c2jitter 5 5 0).2)) :=
  ⟨by intro a; constructor <;> norm_num [c2jitter],
   C2_embedding_retry_policy c2oracle c2jitter c2errs
     (by intro a; constructor <;> norm_num [c2jitter])⟩

/-- C3: whenever the classifier call fails, classification falls back to
isBlank given by trimmed transcript length below 50, isSpam false, isRelevant
false, each confidence one half; for the empty transcript the fallback
classifies it blank and the worker drives the unit to terminal status blank. -/
theorem C3_classifier_fallback_blank (transcript : String)
    (chunkStage : Except String ℕ) :
    classifyTranscript none transcript =
      ⟨decide ((jsTrim transcript).length < 50), false, false, 1/2, 1/2, 1/2⟩
    ∧ classifyTranscript none "" = ⟨true, false, false, 1/2, 1/2, 1/2⟩
    ∧ processCallWorker (Except.ok "") none chunkStage =
      ⟨"blank", none, 0, false⟩ := by
  refine ⟨rfl, rfl, rfl⟩

/-- C4 counterexample: a unit failing transcription in the single-call upload
route ends in status failed with error_reason left null, refuting the claim
that every transcription-stage failure records a non-null errorReason. -/
theorem C4_upload_failure_leaves_error_reason_null :
    (processCallUpload (Except.error "Failed to transcribe audio") none
        (Except.ok 3)).status = "failed"
    ∧ (processCallUpload (Except.error "Failed to transcribe audio") none
        (Except.ok 3)).error_reason = none := ⟨rfl, rfl⟩

/-- C4 amended: a unit whose transcription stage fails always ends in status
failed with zero chunk rows and without entering chunking; the worker route
records the thrown message as error_reason, while the single-call upload route
leaves error_reason null. -/
theorem C4_transcription_failure_outcome (e : String)
    (classifier : Option Classification) (chunkStage : Except String ℕ) :
    processCallWorker (Except.error e) classifier chunkStage =
      ⟨"failed", some e, 0, false⟩
    ∧ processCallUpload (Except.error e) classifier chunkStage =
      ⟨"failed", none, 0, false⟩ := ⟨rfl, rfl⟩

/-- C5 counterexample: a transcript classified neither blank nor spam nor
relevant ends in terminal status approved, not irrelevant, in the single-call
upload route. -/
theorem C5_upload_residual_status_approved :
    processCallUpload (Except.ok "t")
        (some ⟨false, false, false, 1/2, 1/2, 1/2⟩) (Except.ok 0) =
      ⟨"approved", none, 0, false⟩
    ∧ ("approved" : String) ≠ "irrelevant" :=
  ⟨rfl, by decide⟩

/-- C5 amended: in both ingestion routes the chunking stage is entered exactly
when the classification is neither blank nor spam and is relevant; conflicting
flags resolve with priority blank over spam over relevant; a transcript that is
neither blank nor spam nor relevant ends in irrelevant in the worker route but
in approved in the single-call upload route. -/
theorem C5_relevance_gate (c : Classification) (t : String)
    (st : Except String ℕ) :
    ((processCallWorker (Except.ok t) (some c) st).enteredChunking =
        (!c.isBlank && !c.isSpam && c.is11zaRelated))
    ∧ ((processCallUpload (Except.ok t) (some c) st).enteredChunking =
        (!c.isBlank && !c.isSpam && c.is11zaRelated))
    ∧ (c.isBlank = true →
        finalStatusWorker c = "blank" ∧ finalStatusUpload c = "blank")
    ∧ (c.isBlank = false → c.isSpam = true →
        finalStatusWorker c = "spam" ∧ finalStatusUpload c = "spam")
    ∧ (c.isBlank = false → c.isSpam = false → c.is11zaRelated = true →
        finalStatusWorker c = "11za_related"
          ∧ finalStatusUpload c = "11za_related")
    ∧ (c.isBlank = false → c.isSpam = false → c.is11zaRelated = false →
        finalStatusWorker c = "irrelevant"
          ∧ finalStatusUpload c = "approved") := by
  obtain ⟨b, s, r, q1, q2, q3⟩ := c
  cases b <;> cases s <;> cases r <;> cases st <;>
    simp [processCallWorker, processCallUpload, classifyTranscript,
      finalStatusWorker, finalStatusUpload]

/-- Witness for C5 at the all-false classification. -/
theorem C5_relevance_gate_witness :
    finalStatusWorker ⟨false, false, false, 1/2, 1/2, 1/2⟩ = "irrelevant"
    ∧ finalStatusUpload ⟨false, false, false, 1/2, 1/2, 1/2⟩ = "approved" :=
  (C5_relevance_gate ⟨false, false, false, 1/2, 1/2, 1/2⟩ "t"
    (Except.ok 0)).2.2.2.2.2 rfl rfl rfl

/-- Query stream that fails on every attempt, the k-th issued query erroring
with message k, for the C6 analysis. -/
def c6failStream : ℕ → Except String String := fun k =>
  Except.error (Nat.repr k)

/-- C6: when every attempt fails, retrySupabaseQuery issues four remote
queries, not three: the three loop attempts, with linear waits of 1 then 2
seconds, plus a fourth query issued by the final return statement, whose fresh
result is what the caller receives. -/
theorem C6_retry_issues_fourth_query :
    retrySupabaseQuery c6failStream 3 = (Except.error "3", 4, [1, 2]) := by
  rfl

/-- C7 counterexample: a connection error (code 08006) and the no-rows
condition (code PGRST116) produce the same none result in both mapping
lookups, so the caller cannot distinguish a failed lookup from an unconfigured
mapping. -/
theorem C7_error_indistinguishable_from_none :
    getDataSourceForPhone (QueryOutcome.err "08006" "connection refused") =
      getDataSourceForPhone (QueryOutcome.err "PGRST116" "no rows")
    ∧ getShopifyStoreForPhoneNumber
        (QueryOutcome.err "08006" "connection refused") =
      getShopifyStoreForPhoneNumber (QueryOutcome.err "PGRST116" "no rows") :=
  ⟨rfl, rfl⟩

/-- C7 amended: a zero-rows outcome is returned as the non-error result none,
but a connection or query error is logged and returned as the very same none
value by both lookups, so the two outcomes are not distinguishable by the
caller. -/
theorem C7_every_error_collapses_to_none (code msg : String) :
    getDataSourceForPhone (QueryOutcome.err "PGRST116" msg) = none
    ∧ getShopifyStoreForPhoneNumber (QueryOutcome.err "PGRST116" msg) = none
    ∧ getDataSourceForPhone (QueryOutcome.err code msg) = none
    ∧ getShopifyStoreForPhoneNumber (QueryOutcome.err code msg) = none := by
  refine ⟨rfl, rfl, ?_, ?_⟩ <;>
    simp [getDataSourceForPhone, getShopifyStoreForPhoneNumber]

/-- Store of 21 messages involving counterpart u with distinct ascending
timestamps 0 through 20, all inbound text messages. -/
def c8store : List WMessage :=
  (List.range 21).map (fun i =>
    ⟨Nat.repr i, "u", "biz", i, some (Nat.repr i), "MoMessage"⟩)

/-- C8: with 21 persisted messages the history query loads the 20 oldest rows
(received_at 0 through 19), because it orders ascending before applying the
limit, and so drops the most recent message (received_at 20); the prompt
context then keeps the last 10 of the loaded rows. -/
theorem C8_history_query_loads_oldest :
    ((loadHistoryRows c8store "u").map (fun m => m.received_at) =
      List.range 20)
    ∧ (∀ m ∈ loadHistoryRows c8store "u", m.received_at ≠ 20)
    ∧ promptHistory c8store "u" =
        (List.range 10).map (fun i => ("user", Nat.repr (i + 10))) := by
  refine ⟨?_, ?_, ?_⟩ <;> decide

/-- C10: a mapping row whose data_source column is null or empty makes the
lookup return file rather than none, and the caller then proceeds down the
file/call retrieval path instead of reporting no configured source. -/
theorem C10_null_data_source_defaults_to_file :
    getDataSourceForPhone (QueryOutcome.rows none) = some "file"
    ∧ getDataSourceForPhone (QueryOutcome.rows (some "")) = some "file"
    ∧ autoResponsePath (getDataSourceForPhone (QueryOutcome.rows none)) =
        RetrievalPath.filePath
    ∧ autoResponsePath (getDataSourceForPhone (QueryOutcome.rows (some ""))) =
        RetrievalPath.filePath :=
  ⟨rfl, rfl, rfl, rfl⟩

end SpeechToRag
